import Mathlib

/-!
Shallow embedding of the cross-platform layer of `serialport-rs`
(`src/lib.rs`): the baud-rate data model and its two conversion
functions, the error model and its conversions to and from native
I/O errors, the settings aggregate with its default, and the
fallback branches of the front-door free functions compiled on a
platform family with no implementation.
-/

namespace Serialport

/-- The variants of the host's native `io::ErrorKind` (Rust's stable set at
the crate's era).  The crate treats this type abstractly: it only stores and
maps kinds through, so the embedding lists the variants as an enumeration. -/
inductive IoErrorKind where
  | NotFound
  | PermissionDenied
  | ConnectionRefused
  | ConnectionReset
  | ConnectionAborted
  | NotConnected
  | AddrInUse
  | AddrNotAvailable
  | BrokenPipe
  | AlreadyExists
  | WouldBlock
  | InvalidInput
  | InvalidData
  | TimedOut
  | WriteZero
  | Interrupted
  | Other
  | UnexpectedEof
  deriving DecidableEq

/-- A native `io::Error`: its kind plus its display message (what
`format!` on the error prints). -/
structure IoError where
  kind : IoErrorKind
  display : String
  deriving DecidableEq

/-- `ErrorKind` from `src/lib.rs` lines 94-111: the closed taxonomy of
serial-port error categories. -/
inductive ErrorKind where
  | NoDevice
  | InvalidInput
  | Unknown
  | Io (kind : IoErrorKind)
  deriving DecidableEq

/-- `Error` from `src/lib.rs` lines 115-120: a kind plus a human-readable
description. -/
structure Error where
  kind : ErrorKind
  description : String
  deriving DecidableEq

/-- `Error::new` (`src/lib.rs` lines 124-129). -/
def Error.new (kind : ErrorKind) (description : String) : Error :=
  { kind := kind, description := description }

/-- The method `Error::kind` (`src/lib.rs` lines 132-134): returns the
`kind` field. -/
def Error.kind_method (e : Error) : ErrorKind :=
  e.kind

/-- `impl From<io::Error> for Error` (`src/lib.rs` lines 149-153):
wraps the native kind in `Io` and takes the native display message as
the description. -/
def Error.from_io_error (io_error : IoError) : Error :=
  Error.new (ErrorKind.Io io_error.kind) io_error.display

/-- `impl From<Error> for io::Error` (`src/lib.rs` lines 155-166): maps the
kind back (`NoDevice` to `NotFound`, `InvalidInput` to `InvalidInput`,
`Unknown` to `Other`, `Io k` to `k`) and carries the description across as
the new native error's message. -/
def Error.to_io_error (error : Error) : IoError :=
  let kind := match error.kind with
    | ErrorKind.NoDevice => IoErrorKind.NotFound
    | ErrorKind.InvalidInput => IoErrorKind.InvalidInput
    | ErrorKind.Unknown => IoErrorKind.Other
    | ErrorKind.Io kind => kind
  { kind := kind, display := error.description }

/-- `BaudRate` from `src/lib.rs` lines 177-213: eleven named standard rates
plus `BaudOther` carrying an arbitrary integer rate (`usize` modelled as
`Nat`). -/
inductive BaudRate where
  | Baud110
  | Baud300
  | Baud600
  | Baud1200
  | Baud2400
  | Baud4800
  | Baud9600
  | Baud19200
  | Baud38400
  | Baud57600
  | Baud115200
  | BaudOther (n : Nat)
  deriving DecidableEq

/-- `BaudRate::from_speed` (`src/lib.rs` lines 229-244): the source's
`match` on the integer, with the catch-all arm producing `BaudOther`. -/
def BaudRate.from_speed (speed : Nat) : BaudRate :=
  if speed = 110 then BaudRate.Baud110
  else if speed = 300 then BaudRate.Baud300
  else if speed = 600 then BaudRate.Baud600
  else if speed = 1200 then BaudRate.Baud1200
  else if speed = 2400 then BaudRate.Baud2400
  else if speed = 4800 then BaudRate.Baud4800
  else if speed = 9600 then BaudRate.Baud9600
  else if speed = 19200 then BaudRate.Baud19200
  else if speed = 38400 then BaudRate.Baud38400
  else if speed = 57600 then BaudRate.Baud57600
  else if speed = 115200 then BaudRate.Baud115200
  else BaudRate.BaudOther speed

/-- `BaudRate::speed` (`src/lib.rs` lines 256-271). -/
def BaudRate.speed : BaudRate → Nat
  | BaudRate.Baud110 => 110
  | BaudRate.Baud300 => 300
  | BaudRate.Baud600 => 600
  | BaudRate.Baud1200 => 1200
  | BaudRate.Baud2400 => 2400
  | BaudRate.Baud4800 => 4800
  | BaudRate.Baud9600 => 9600
  | BaudRate.Baud19200 => 19200
  | BaudRate.Baud38400 => 38400
  | BaudRate.Baud57600 => 57600
  | BaudRate.Baud115200 => 115200
  | BaudRate.BaudOther n => n

/-- The eleven standard speeds, i.e. the integer arms of `from_speed`. -/
def standard_speeds : List Nat :=
  [110, 300, 600, 1200, 2400, 4800, 9600, 19200, 38400, 57600, 115200]

/-- `DataBits` from `src/lib.rs` lines 276-288. -/
inductive DataBits where
  | Five
  | Six
  | Seven
  | Eight
  deriving DecidableEq

/-- `Parity` from `src/lib.rs` lines 300-309. -/
inductive Parity where
  | None
  | Odd
  | Even
  deriving DecidableEq

/-- `StopBits` from `src/lib.rs` lines 315-321. -/
inductive StopBits where
  | One
  | Two
  deriving DecidableEq

/-- `FlowControl` from `src/lib.rs` lines 325-334. -/
inductive FlowControl where
  | None
  | Software
  | Hardware
  deriving DecidableEq

/-- The host's `std::time::Duration`: whole seconds plus a nanosecond
remainder below one billion. -/
structure Duration where
  secs : Nat
  nanos : Nat
  deriving DecidableEq

/-- `Duration::from_millis`: seconds are the quotient by 1000 and the
remainder becomes nanoseconds. -/
def Duration.from_millis (millis : Nat) : Duration :=
  { secs := millis / 1000, nanos := millis % 1000 * 1000000 }

/-- `SerialPortSettings` from `src/lib.rs` lines 338-351. -/
structure SerialPortSettings where
  baud_rate : BaudRate
  data_bits : DataBits
  flow_control : FlowControl
  parity : Parity
  stop_bits : StopBits
  timeout : Duration
  deriving DecidableEq

/-- `impl Default for SerialPortSettings` (`src/lib.rs` lines 353-364). -/
def SerialPortSettings.default : SerialPortSettings :=
  { baud_rate := BaudRate.Baud9600
  , data_bits := DataBits.Eight
  , flow_control := FlowControl.None
  , parity := Parity.None
  , stop_bits := StopBits.One
  , timeout := Duration.from_millis 1 }

/-- `UsbPortInfo` from `src/lib.rs` lines 539-550. -/
structure UsbPortInfo where
  vid : Nat
  pid : Nat
  serial_number : Option String
  manufacturer : Option String
  product : Option String
  deriving DecidableEq

/-- `SerialPortType` from `src/lib.rs` lines 554-561. -/
inductive SerialPortType where
  | UsbPort (info : UsbPortInfo)
  | PciPort
  | Unknown
  deriving DecidableEq

/-- `SerialPortInfo` from `src/lib.rs` lines 565-570. -/
structure SerialPortInfo where
  port_name : String
  port_type : SerialPortType
  deriving DecidableEq

/-- On a platform family with no implementation no port handle can ever be
produced, so the success payload of the fallback open functions is the
empty type. -/
def NoPlatformHandle : Type := Empty

/-- The `cfg(not(any(unix, windows)))` arm of `open` (`src/lib.rs`
lines 604-605): every path fails with an `Unknown` error. -/
def open_no_platform (_port : String) : Except Error NoPlatformHandle :=
  Except.error (Error.new ErrorKind.Unknown "open() not implemented for platform")

/-- The `cfg(not(any(unix, windows)))` arm of `open_with_settings`
(`src/lib.rs` lines 642-643). -/
def open_with_settings_no_platform (_port : String) (_settings : SerialPortSettings) :
    Except Error NoPlatformHandle :=
  Except.error (Error.new ErrorKind.Unknown "open() not implemented for platform")

/-- The `cfg(not(any(unix, windows)))` arm of `available_ports`
(`src/lib.rs` lines 657-659). -/
def available_ports_no_platform : Except Error (List SerialPortInfo) :=
  Except.error (Error.new ErrorKind.Unknown
    "available_ports() not implemented for platform")

/-- The `cfg(not(any(unix, windows)))` arm of `available_baud_rates`
(`src/lib.rs` lines 675-676): the return type carries no error and the
fallback value is the empty vector. -/
def available_baud_rates_no_platform : List Nat :=
  []

set_option maxHeartbeats 800000 in
/-- Helper: `speed` recovers the argument of `from_speed`, by case analysis
on the eleven integer arms of the source's `match`. -/
theorem from_speed_speed_eq (n : Nat) :
    (BaudRate.from_speed n).speed = n := by
  rw [BaudRate.from_speed]
  repeat' split
  all_goals subst_vars
  all_goals rfl

set_option maxHeartbeats 800000 in
/-- Helper: `from_speed` only returns `BaudOther m` when it fell through
all eleven integer arms, so `m` is the argument itself and the argument is
not a standard speed. -/
theorem from_speed_baudOther (n m : Nat)
    (h : BaudRate.from_speed n = BaudRate.BaudOther m) :
    m = n ∧ n ∉ standard_speeds := by
  rw [BaudRate.from_speed] at h
  repeat' split at h
  any_goals exact BaudRate.noConfusion h
  injection h with h'
  subst h'
  refine ⟨rfl, ?_⟩
  simp only [standard_speeds, List.mem_cons, List.not_mem_nil, or_false]
  omega

/-- Claim C1: for each of the eleven named `BaudRate` variants `b`,
`BaudRate::from_speed(b.speed()) == b`. -/
theorem from_speed_of_speed_named :
    BaudRate.from_speed BaudRate.Baud110.speed = BaudRate.Baud110 ∧
    BaudRate.from_speed BaudRate.Baud300.speed = BaudRate.Baud300 ∧
    BaudRate.from_speed BaudRate.Baud600.speed = BaudRate.Baud600 ∧
    BaudRate.from_speed BaudRate.Baud1200.speed = BaudRate.Baud1200 ∧
    BaudRate.from_speed BaudRate.Baud2400.speed = BaudRate.Baud2400 ∧
    BaudRate.from_speed BaudRate.Baud4800.speed = BaudRate.Baud4800 ∧
    BaudRate.from_speed BaudRate.Baud9600.speed = BaudRate.Baud9600 ∧
    BaudRate.from_speed BaudRate.Baud19200.speed = BaudRate.Baud19200 ∧
    BaudRate.from_speed BaudRate.Baud38400.speed = BaudRate.Baud38400 ∧
    BaudRate.from_speed BaudRate.Baud57600.speed = BaudRate.Baud57600 ∧
    BaudRate.from_speed BaudRate.Baud115200.speed = BaudRate.Baud115200 := by
  decide

/-- Claim C2: for every positive integer `n` that is not one of the eleven
standard speeds, `BaudRate::from_speed(n) == BaudOther(n)` and
`BaudOther(n).speed() == n`. -/
theorem from_speed_nonstandard (n : Nat) (hpos : 0 < n)
    (hns : n ∉ standard_speeds) :
    BaudRate.from_speed n = BaudRate.BaudOther n ∧
    (BaudRate.BaudOther n).speed = n := by
  simp only [standard_speeds, List.mem_cons, List.not_mem_nil, or_false, not_or] at hns
  obtain ⟨h1, h2, h3, h4, h5, h6, h7, h8, h9, h10, h11⟩ := hns
  refine ⟨?_, rfl⟩
  simp [BaudRate.from_speed, h1, h2, h3, h4, h5, h6, h7, h8, h9, h10, h11]

/-- Witness for C2 at the concrete non-standard speed 42. -/
theorem from_speed_nonstandard_witness :
    BaudRate.from_speed 42 = BaudRate.BaudOther 42 ∧
    (BaudRate.BaudOther 42).speed = 42 :=
  from_speed_nonstandard 42 (by decide) (by decide)

/-- Claim C3: converting a native I/O error of any kind into a serialport
`Error` and back to a native I/O error preserves the kind exactly. -/
theorem io_error_kind_round_trip (e : IoError) :
    (Error.to_io_error (Error.from_io_error e)).kind = e.kind :=
  rfl

/-- Claim C4: `SerialPortSettings::default()` is exactly the aggregate
{9600 baud, 8 data bits, no flow control, no parity, 1 stop bit,
1 millisecond timeout}. -/
theorem default_settings_value :
    SerialPortSettings.default =
      { baud_rate := BaudRate.Baud9600
      , data_bits := DataBits.Eight
      , flow_control := FlowControl.None
      , parity := Parity.None
      , stop_bits := StopBits.One
      , timeout := { secs := 0, nanos := 1000000 } } := by
  decide

/-- Claim C5: the serialport-to-native conversion maps `NoDevice` to
`NotFound`, `InvalidInput` to `InvalidInput`, `Unknown` to `Other`, and
`Io k` to `k`; and the native-to-serialport conversion of an error of kind
`k` yields kind `Io k` with the native display message as description. -/
theorem error_kind_mappings :
    (∀ d : String, (Error.to_io_error (Error.new ErrorKind.NoDevice d)).kind =
      IoErrorKind.NotFound) ∧
    (∀ d : String, (Error.to_io_error (Error.new ErrorKind.InvalidInput d)).kind =
      IoErrorKind.InvalidInput) ∧
    (∀ d : String, (Error.to_io_error (Error.new ErrorKind.Unknown d)).kind =
      IoErrorKind.Other) ∧
    (∀ (k : IoErrorKind) (d : String),
      (Error.to_io_error (Error.new (ErrorKind.Io k) d)).kind = k) ∧
    (∀ e : IoError,
      Error.from_io_error e = Error.new (ErrorKind.Io e.kind) e.display) :=
  ⟨fun _ => rfl, fun _ => rfl, fun _ => rfl, fun _ _ => rfl, fun _ => rfl⟩

/-- Claim C6: on a platform family with no implementation, `open`,
`open_with_settings` and `available_ports` each return an error of kind
`Unknown` with a non-empty description naming the missing capability, for
every input. -/
theorem no_platform_front_door_errors :
    (∀ port : String, ∃ e : Error,
      open_no_platform port = Except.error e ∧
      e.kind = ErrorKind.Unknown ∧ e.description ≠ "") ∧
    (∀ (port : String) (s : SerialPortSettings), ∃ e : Error,
      open_with_settings_no_platform port s = Except.error e ∧
      e.kind = ErrorKind.Unknown ∧ e.description ≠ "") ∧
    (∃ e : Error,
      available_ports_no_platform = Except.error e ∧
      e.kind = ErrorKind.Unknown ∧ e.description ≠ "") := by
  refine ⟨fun port => ⟨_, rfl, rfl, ?_⟩, fun port s => ⟨_, rfl, rfl, ?_⟩,
    ⟨_, rfl, rfl, ?_⟩⟩ <;> decide

/-- Claim C7: `available_baud_rates` is total with an error-free return
type, and the fallback for a platform family with no implementation is the
empty list. -/
theorem available_baud_rates_no_platform_empty :
    available_baud_rates_no_platform = ([] : List Nat) :=
  rfl

/-- Claim C8: `Error::new(k, d)` has kind field `k` and description field
`d`, and the `kind()` method on it returns `k`. -/
theorem error_new_fields (k : ErrorKind) (d : String) :
    (Error.new k d).kind = k ∧ (Error.new k d).description = d ∧
    (Error.new k d).kind_method = k :=
  ⟨rfl, rfl, rfl⟩

/-- Claim C9: for every `usize` value `n` whatsoever, including 0 and the
eleven standard speeds, `BaudRate::from_speed(n).speed() == n`. -/
theorem speed_of_from_speed (n : Nat) :
    (BaudRate.from_speed n).speed = n :=
  from_speed_speed_eq n

/-- Claim C10: `from_speed` is canonical: it never returns `BaudOther s`
for a standard speed `s`, and at a standard speed `s` it returns the named
variant whose speed is `s`. -/
theorem from_speed_canonical (n s : Nat) (hs : s ∈ standard_speeds) :
    BaudRate.from_speed n ≠ BaudRate.BaudOther s ∧
    (∀ m : Nat, BaudRate.from_speed s ≠ BaudRate.BaudOther m) ∧
    (BaudRate.from_speed s).speed = s := by
  refine ⟨fun h => ?_, fun m h => ?_, from_speed_speed_eq s⟩
  · obtain ⟨rfl, hns⟩ := from_speed_baudOther n s h
    exact hns hs
  · exact (from_speed_baudOther s m h).2 hs

/-- Witness for C10 at the concrete inputs n = 42, s = 9600. -/
theorem from_speed_canonical_witness :
    BaudRate.from_speed 42 ≠ BaudRate.BaudOther 9600 ∧
    (∀ m : Nat, BaudRate.from_speed 9600 ≠ BaudRate.BaudOther m) ∧
    (BaudRate.from_speed 9600).speed = 9600 :=
  from_speed_canonical 42 9600 (by decide)

end Serialport
